import Mathlib

/-!
Shallow embedding of the timhawes_netthing CircuitPython client library.

Layers modelled, following the source:
* manager.py, class SocketManager: connection lifecycle (reconnect, retry,
  pause, _try_connect, loop, send_raw, receive_raw).
* manager.py, class PacketManager: length-prefixed framing
  (send_packet, receive_packet).
* manager.py, class JsonPacketManager: JSON message channel (receive_json).
* smart.py, class NetThing: receive cycle with liveness timeout and the
  file-transfer command handlers (cmd_file_data).
* filewriter.py, class FileWriter: staged file writes with size and md5
  verification (open, write, abort, commit).

Modelling conventions: bytes are natural numbers, byte strings are lists of
naturals, monotonic time is an integer, and the external environment (socket
connect success, socket send outcome, received chunks, disk success, the md5
hex digest function and the JSON parser) is passed in as explicit oracle
arguments.  Each disconnect_hook invocation is recorded as the state the hook
observes at the moment it is called.
-/

/-- A byte string: one frame payload, buffer or file content. -/
abbrev Bytes := List Nat

/-- Python truthiness of the optional host string, as used by the guard
"if not (self._host and self._port)" in SocketManager._try_connect. -/
def strTruthy : Option String → Bool
  | none => false
  | some s => decide (s ≠ "")

/-- Python truthiness of the optional port number (0 and None are falsy). -/
def natTruthy : Option Nat → Bool
  | none => false
  | some n => decide (n ≠ 0)

/-- State of manager.py class SocketManager: configuration target, reconnect
interval, the connected and paused flags, whether the socket handle is open,
and the time of the last connect attempt. -/
structure SocketManager where
  host : Option String
  port : Option Nat
  reconnect_interval : Nat
  connected : Bool
  paused : Bool
  sockOpen : Bool
  last_connect_attempt : Int
deriving DecidableEq

/-- SocketManager._try_connect (manager.py lines 74-96).  Returns the new
state and whether a connect attempt was actually made (a socket was opened
and connect called).  The oracle connectOk tells whether the connect
succeeded; on failure the partially opened socket is closed and the state is
left unchanged. -/
def SocketManager.try_connect_a (s : SocketManager) (connectOk : Bool) :
    SocketManager × Bool :=
  if s.connected then (s, false)
  else if s.paused then (s, false)
  else if !(strTruthy s.host && natTruthy s.port) then (s, false)
  else if connectOk then ({ s with connected := true, sockOpen := true }, true)
  else (s, true)

/-- SocketManager._try_connect, state part only. -/
def SocketManager.try_connect (s : SocketManager) (connectOk : Bool) : SocketManager :=
  (s.try_connect_a connectOk).1

/-- SocketManager.loop (manager.py lines 104-110): the poll operation.  If
disconnected and the reconnect interval has elapsed since the last attempt,
record the attempt time and try to connect.  Also returns whether a connect
attempt was made. -/
def SocketManager.loop_a (s : SocketManager) (now : Int) (connectOk : Bool) :
    SocketManager × Bool :=
  if s.connected then (s, false)
  else if now - s.last_connect_attempt > (s.reconnect_interval : Int) then
    SocketManager.try_connect_a { s with last_connect_attempt := now } connectOk
  else (s, false)

/-- SocketManager.loop, state part only. -/
def SocketManager.loop (s : SocketManager) (now : Int) (connectOk : Bool) : SocketManager :=
  (s.loop_a now connectOk).1

/-- SocketManager.pause (manager.py lines 70-72): sets the paused flag and
nothing else. -/
def SocketManager.pause (s : SocketManager) : SocketManager :=
  { s with paused := true }

/-- SocketManager.retry (manager.py lines 64-68): clear the paused flag,
backdate the last attempt so the timer has elapsed, and try to connect now. -/
def SocketManager.retry (s : SocketManager) (now : Int) (connectOk : Bool) : SocketManager :=
  SocketManager.try_connect
    { s with paused := false,
             last_connect_attempt := now - (s.reconnect_interval : Int) } connectOk

/-- SocketManager.reconnect (manager.py lines 54-62).  If connected: clear
the connected flag, close the socket, then fire disconnect_hook; afterwards,
if not paused, retry.  The second component records the state observed by
each disconnect_hook invocation, in order. -/
def SocketManager.reconnect_h (s : SocketManager) (now : Int) (connectOk : Bool) :
    SocketManager × List SocketManager :=
  if s.connected then
    let s1 := { s with connected := false, sockOpen := false }
    let s2 := if s1.paused then s1 else s1.retry now connectOk
    (s2, [s1])
  else
    (if s.paused then s else s.retry now connectOk, [])

/-- SocketManager.send_raw (manager.py lines 112-129).  Calls loop first;
if connected, attempts the send.  The oracle sendResult is the outcome of
sock.send: none means the call raised, some sent means it returned sent
bytes.  A short send raises RuntimeError which is caught by the same
except-clause; either way the connection is torn down (connected cleared,
socket closed, disconnect_hook fired) and 0 is returned.  Returns the new
state, the byte count returned to the caller, and the states observed by the
disconnect_hook invocations. -/
def SocketManager.send_raw_h (s : SocketManager) (now : Int) (connectOk : Bool)
    (sendResult : Option Nat) (dataLen : Nat) :
    SocketManager × Nat × List SocketManager :=
  let s1 := s.loop now connectOk
  if s1.connected then
    match sendResult with
    | some sent =>
      if sent = dataLen then (s1, sent, [])
      else
        let s2 := { s1 with connected := false, sockOpen := false }
        (s2, 0, [s2])
    | none =>
      let s2 := { s1 with connected := false, sockOpen := false }
      (s2, 0, [s2])
  else (s1, 0, [])

/-- One outcome of sock.recv_into inside SocketManager.receive_raw: a chunk
of received bytes, a zero-byte read (peer closed), or an OSError with the
given errno (11 is EAGAIN, meaning no more data for now). -/
inductive RecvEvent where
  | chunk (data : Bytes)
  | eof
  | oserror (errno : Nat)
deriving DecidableEq

/-- The read loop of SocketManager.receive_raw (manager.py lines 135-153),
driven by the listed recv outcomes.  On eof or a non-EAGAIN OSError the
connection is torn down (connected cleared, socket closed, disconnect_hook
fired) and the loop exits; on EAGAIN the loop exits with state unchanged.
The second component records the states observed by disconnect_hook. -/
def SocketManager.recv_go (s : SocketManager) :
    List RecvEvent → SocketManager × List SocketManager
  | [] => (s, [])
  | RecvEvent.chunk _ :: es => SocketManager.recv_go s es
  | RecvEvent.eof :: _ =>
    let s2 := { s with connected := false, sockOpen := false }
    (s2, [s2])
  | RecvEvent.oserror errno :: _ =>
    if errno = 11 then (s, [])
    else
      let s2 := { s with connected := false, sockOpen := false }
      (s2, [s2])

/-- SocketManager.receive_raw (manager.py lines 131-153): calls loop, then
if connected runs the read loop over the available recv outcomes. -/
def SocketManager.receive_raw_h (s : SocketManager) (now : Int) (connectOk : Bool)
    (events : List RecvEvent) : SocketManager × List SocketManager :=
  let s1 := s.loop now connectOk
  if s1.connected then s1.recv_go events else (s1, [])

/-- Repeated SocketManager.loop calls, one per (time, connect outcome) pair. -/
def SocketManager.poll_many (s : SocketManager) : List (Int × Bool) → SocketManager
  | [] => s
  | a :: as => SocketManager.poll_many (s.loop a.1 a.2) as

/-- PacketManager.send_packet, length-prefix construction (manager.py lines
176-190): with a 1-byte length field a payload over 255 bytes raises
ValueError before anything is sent, otherwise the packet is the length byte
followed by the payload; with the 2-byte length field (the else branch) a
payload over 65535 bytes raises, otherwise the packet is the big-endian
16-bit length followed by the payload. -/
def PacketManager.send_packet_encode (length_bytes : Nat) (data : Bytes) :
    Except String Bytes :=
  if length_bytes = 1 then
    if data.length > 255 then Except.error "Maximum packet size is 255"
    else Except.ok (data.length :: data)
  else
    if data.length > 65535 then Except.error "Maximum packet size is 65535"
    else Except.ok (data.length / 256 :: data.length % 256 :: data)

/-- PacketManager.send_packet (manager.py lines 176-198): encode, then hand
the packet to send_raw.  The ValueError from the oversize check propagates
before send_raw is reached; otherwise the new socket state and the byte
count returned by send_raw are produced. -/
def PacketManager.send_packet (s : SocketManager) (now : Int) (connectOk : Bool)
    (sendResult : Option Nat) (length_bytes : Nat) (data : Bytes) :
    Except String (SocketManager × Nat) :=
  match PacketManager.send_packet_encode length_bytes data with
  | Except.error e => Except.error e
  | Except.ok packet =>
    let r := s.send_raw_h now connectOk sendResult packet.length
    Except.ok (r.1, r.2.1)

/-- The frame-extraction loop of PacketManager.receive_packet (manager.py
lines 205-214), fuel-indexed for structural recursion: while at least two
bytes are buffered, read the first two bytes as a big-endian length and, if
the whole frame is buffered, extract the payload and continue on the rest;
otherwise stop and keep the buffer.  The fuel only needs to exceed half the
buffer length, since every extracted frame consumes at least two bytes. -/
def PacketManager.receive_packet_aux : Nat → Bytes → List Bytes × Bytes
  | _, [] => ([], [])
  | _, [b] => ([], [b])
  | 0, b0 :: b1 :: rest => ([], b0 :: b1 :: rest)
  | fuel + 1, b0 :: b1 :: rest =>
    if 256 * b0 + b1 ≤ rest.length then
      let r := PacketManager.receive_packet_aux fuel (rest.drop (256 * b0 + b1))
      (rest.take (256 * b0 + b1) :: r.1, r.2)
    else ([], b0 :: b1 :: rest)

/-- Drain all complete frames from a buffer, exactly as the while loop of
PacketManager.receive_packet does; returns the extracted payloads and the
leftover buffer (self.current). -/
def PacketManager.receive_packet_drain (buf : Bytes) : List Bytes × Bytes :=
  PacketManager.receive_packet_aux buf.length buf

/-- PacketManager.receive_packet across calls (manager.py lines 200-216):
for each received chunk, append it to the persistent buffer self.current and
drain all complete frames.  Returns all payloads produced, in order, and the
final leftover buffer. -/
def PacketManager.receive_packet_feed (buf : Bytes) :
    List Bytes → List Bytes × Bytes
  | [] => ([], buf)
  | c :: cs =>
    let d := PacketManager.receive_packet_drain (buf ++ c)
    let r := PacketManager.receive_packet_feed d.2 cs
    (d.1 ++ r.1, r.2)

/-- JsonPacketManager.receive_json (manager.py lines 229-234): decode each
frame payload with the JSON parser.  The source wraps json.loads in no
try-except, so the first payload the parser rejects makes the exception
propagate out of the generator; this is modelled by returning that payload
as the error. -/
def JsonPacketManager.receive_json {α : Type} (parse : Bytes → Option α) :
    List Bytes → Except Bytes (List α)
  | [] => Except.ok []
  | p :: ps =>
    match parse p with
    | none => Except.error p
    | some m =>
      match JsonPacketManager.receive_json parse ps with
      | Except.ok ms => Except.ok (m :: ms)
      | Except.error e => Except.error e

/-- State of smart.py class NetThing relevant to the receive cycle: the
underlying socket manager, the time of the last received message and the
liveness timeout. -/
structure NetThing where
  sock : SocketManager
  last_receive : Option Int
  receive_timeout : Nat
deriving DecidableEq

/-- The liveness check at the end of NetThing.receive (smart.py lines
199-205): if connected, a message has been received before, and more than
receive_timeout has elapsed since, clear last_receive and force a
reconnect.  Returns the new state and whether a reconnect was forced. -/
def NetThing.receive_liveness (s : NetThing) (now : Int) (connectOk : Bool) :
    NetThing × Bool :=
  if s.sock.connected then
    match s.last_receive with
    | some t =>
      if now - t > (s.receive_timeout : Int) then
        ({ s with sock := (s.sock.reconnect_h now connectOk).1, last_receive := none }, true)
      else (s, false)
    | none => (s, false)
  else (s, false)

/-- One cycle of NetThing.receive (smart.py lines 188-205): decode the
frame payloads as JSON (a parse failure propagates out of the whole cycle,
skipping the liveness check), update last_receive when any message arrived,
then run the liveness check.  Produces the decoded messages, the new state
and whether a reconnect was forced. -/
def NetThing.receive_cycle {α : Type} (parse : Bytes → Option α)
    (pkts : List Bytes) (s : NetThing) (now : Int) (connectOk : Bool) :
    Except Bytes (List α × NetThing × Bool) :=
  match JsonPacketManager.receive_json parse pkts with
  | Except.error e => Except.error e
  | Except.ok ms =>
    let s1 := if ms.isEmpty then s else { s with last_receive := some now }
    let r := s1.receive_liveness now connectOk
    Except.ok (ms, r.1, r.2)

/-- Durable storage as seen by one transfer: the content at the target path
and at the staging path (target path plus ".new"), if those files exist. -/
structure FileSys where
  target : Option Bytes
  staging : Option Bytes
deriving DecidableEq

/-- State of filewriter.py class FileWriter: declared size, declared md5
hex digest, whether the staging handle is open, the bytes fed to the
running hash and the bytes-written counter. -/
structure FileWriter where
  size : Nat
  md5 : String
  handleOpen : Bool
  written : Bytes
  position : Nat
deriving DecidableEq

/-- FileWriter.open (filewriter.py lines 46-49): open the staging file for
writing (truncating it) and reset the hash and position. -/
def FileWriter.openFile (fw : FileWriter) (fs : FileSys) : FileWriter × FileSys :=
  ({ fw with handleOpen := true, written := [], position := 0 },
   { fs with staging := some [] })

/-- FileWriter.write (filewriter.py lines 51-56): open the staging file
first if needed, then append the data to it, feed it to the hash and
advance position.  The oracle diskOk tells whether the storage write
succeeds; on failure the OSError message is returned and the hash and
position are not advanced. -/
def FileWriter.write (diskOk : Bool) (fw : FileWriter) (fs : FileSys) (data : Bytes) :
    Option String × FileWriter × FileSys :=
  let p := if fw.handleOpen then (fw, fs) else fw.openFile fs
  if diskOk then
    (none,
     { p.1 with written := p.1.written ++ data, position := p.1.position + data.length },
     { p.2 with staging := some ((p.2.staging.getD []) ++ data) })
  else (some "write error", p.1, p.2)

/-- FileWriter.abort (filewriter.py lines 58-62): if the handle is open,
close it and delete the staging file; otherwise do nothing. -/
def FileWriter.abort (fw : FileWriter) (fs : FileSys) : FileWriter × FileSys :=
  if fw.handleOpen then
    ({ fw with handleOpen := false }, { fs with staging := none })
  else (fw, fs)

/-- FileWriter.commit (filewriter.py lines 64-75): if the bytes written
differ from the declared size, or the hex digest of the written bytes
differs from the declared md5, abort (deleting the staging file) and report
no commit; otherwise close the handle and rename the staging file onto the
target path.  The hex digest function is the md5 oracle. -/
def FileWriter.commit (hex : Bytes → String) (fw : FileWriter) (fs : FileSys) :
    FileWriter × FileSys × Bool :=
  if fw.size ≠ fw.position then
    let a := fw.abort fs
    (a.1, a.2, false)
  else if hex fw.written ≠ fw.md5 then
    let a := fw.abort fs
    (a.1, a.2, false)
  else
    ({ fw with handleOpen := false },
     { fs with target := fs.staging, staging := none }, true)

/-- The uncaught Python exception relevant to cmd_file_data: calling
.write on self.filewriter when it is None raises AttributeError, which the
except-clause (OSError only) does not catch. -/
inductive PyError where
  | attributeError
deriving DecidableEq

/-- A reply message sent by NetThing.cmd_file_data. -/
inductive Reply where
  | file_continue (filename : String) (position : Nat)
  | file_write_ok (filename : String)
  | file_write_error (filename : String) (error : String)
deriving DecidableEq

/-- NetThing.cmd_file_data (smart.py lines 122-146): if file management is
disabled, ignore the message.  Otherwise write the decoded chunk through
self.filewriter inside a try-except that catches only OSError: an OSError
becomes a file_write_error reply; if no session exists (filewriter is None)
the AttributeError escapes uncaught and no reply is sent.  On success, an
eof chunk commits and replies file_write_ok, otherwise a file_continue with
the advanced position is sent. -/
def NetThing.cmd_file_data (enabled : Bool) (hex : Bytes → String) (diskOk : Bool)
    (filewriter : Option FileWriter) (fs : FileSys)
    (filename : String) (payload : Bytes) (position : Nat) (eof : Bool) :
    Except PyError (Option FileWriter × FileSys × List Reply) :=
  if enabled = false then Except.ok (filewriter, fs, [])
  else
    match filewriter with
    | none => Except.error PyError.attributeError
    | some fw =>
      match FileWriter.write diskOk fw fs payload with
      | (some e, fw1, fs1) =>
        Except.ok (some fw1, fs1, [Reply.file_write_error filename e])
      | (none, fw1, fs1) =>
        if eof then
          let c := FileWriter.commit hex fw1 fs1
          Except.ok (some c.1, c.2.1, [Reply.file_write_ok filename])
        else
          Except.ok (some fw1, fs1,
            [Reply.file_continue filename (position + payload.length)])

/-! ## Helper lemmas on the connection state machine -/

theorem try_connect_a_paused (s : SocketManager) (ok : Bool) :
    ((s.try_connect_a ok).1).paused = s.paused := by
  unfold SocketManager.try_connect_a
  split_ifs <;> rfl

theorem try_connect_a_fail (s : SocketManager) :
    (s.try_connect_a false).1 = s := by
  unfold SocketManager.try_connect_a
  split_ifs <;> simp_all

theorem retry_unpauses (s : SocketManager) (now : Int) (ok : Bool) :
    (s.retry now ok).paused = false := by
  unfold SocketManager.retry SocketManager.try_connect
  rw [try_connect_a_paused]

theorem loop_pause_invariant (s : SocketManager) (now : Int) (ok : Bool)
    (h1 : s.connected = false) (h2 : s.paused = true) :
    (s.loop now ok).connected = false ∧ (s.loop now ok).paused = true := by
  by_cases hel : now - s.last_connect_attempt > (s.reconnect_interval : Int) <;>
    simp [SocketManager.loop, SocketManager.loop_a, SocketManager.try_connect_a,
      h1, h2, hel]

theorem poll_many_pause_invariant (args : List (Int × Bool)) :
    ∀ s : SocketManager, s.connected = false → s.paused = true →
      (s.poll_many args).connected = false ∧ (s.poll_many args).paused = true := by
  induction args with
  | nil => intro s h1 h2; exact ⟨h1, h2⟩
  | cons a as ih =>
    intro s h1 h2
    have h := loop_pause_invariant s a.1 a.2 h1 h2
    exact ih (s.loop a.1 a.2) h.1 h.2

/-! ## Example states used by witnesses and counterexamples -/

/-- A connected, unpaused, fully configured connection state. -/
def sockConnEx : SocketManager :=
  { host := some "h", port := some 1, reconnect_interval := 10, connected := true,
    paused := false, sockOpen := true, last_connect_attempt := 0 }

/-- The same configuration, currently disconnected. -/
def sockDiscEx : SocketManager :=
  { sockConnEx with connected := false, sockOpen := false }

/-- A pair of poll invocations at later times. -/
def pollArgsEx : List (Int × Bool) := [(100, true), (200, true)]

/-- A stand-in md5 hex digest oracle. -/
def md5Stub : Bytes → String := fun _ => "d41"

/-- A file-transfer session that has written exactly its declared two bytes. -/
def fwEx : FileWriter :=
  { size := 2, md5 := "d41", handleOpen := true, written := [1, 2], position := 2 }

/-- Storage holding a pre-existing target file and the finished staging file. -/
def fsEx : FileSys := { target := some [9], staging := some [1, 2] }

/-! ## Claim theorems -/

/-- Claim C1: FileWriter.commit renames the staging file onto the target
path exactly when the bytes written equal the declared size and the
accumulated md5 hex digest equals the declared checksum; on any mismatch
the staging file is closed and deleted and the target path keeps its
pre-transfer content. -/
theorem FileWriter_commit_integrity (hex : Bytes → String) (fw : FileWriter)
    (fs : FileSys) (hOpen : fw.handleOpen = true) :
    ((FileWriter.commit hex fw fs).2.2 = true ↔
        (fw.position = fw.size ∧ hex fw.written = fw.md5))
    ∧ ((FileWriter.commit hex fw fs).2.2 = true →
        (FileWriter.commit hex fw fs).2.1.target = fs.staging ∧
        (FileWriter.commit hex fw fs).2.1.staging = none)
    ∧ ((FileWriter.commit hex fw fs).2.2 = false →
        (FileWriter.commit hex fw fs).2.1.staging = none ∧
        (FileWriter.commit hex fw fs).2.1.target = fs.target ∧
        (FileWriter.commit hex fw fs).1.handleOpen = false) := by
  unfold FileWriter.commit FileWriter.abort
  by_cases h1 : fw.size = fw.position
  · by_cases h2 : hex fw.written = fw.md5
    · simp [h1, h2]
    · simp [h1, h2, hOpen]
  · simp [h1, hOpen]
    intro h
    exact absurd h.symm h1

theorem FileWriter_commit_integrity_witness :
    (FileWriter.commit md5Stub fwEx fsEx).2.2 = true :=
  (FileWriter_commit_integrity md5Stub fwEx fsEx rfl).1.mpr ⟨rfl, rfl⟩

/-- Claim C3: in the source, a frame payload rejected by the JSON parser
makes the parse exception escape receive_json uncaught (modelled as the
error result carrying the offending payload), rather than being converted
into a protocol error: here the single payload consisting of the byte 255
with a parser that rejects everything. -/
theorem receive_json_parse_error_escapes :
    JsonPacketManager.receive_json (fun _ => (none : Option Unit)) [[255]] =
      Except.error [255] := rfl

/-- Claim C10: with file management enabled and no session begun
(filewriter is None), cmd_file_data raises an uncaught AttributeError and
sends no reply; an OSError from storage inside an existing session is
instead caught and converted to a single file_write_error reply. -/
theorem cmd_file_data_no_session_uncaught (hex : Bytes → String) (fs : FileSys)
    (filename : String) (payload : Bytes) (position : Nat) (eof diskOk : Bool)
    (fw : FileWriter) :
    NetThing.cmd_file_data true hex diskOk none fs filename payload position eof =
      Except.error PyError.attributeError
    ∧ NetThing.cmd_file_data true hex false (some fw) fs filename payload position eof =
        Except.ok (some (FileWriter.write false fw fs payload).2.1,
                   (FileWriter.write false fw fs payload).2.2,
                   [Reply.file_write_error filename "write error"]) := by
  constructor
  · rfl
  · rfl

/-- Claim C7: send_packet fails with the oversize ValueError, sending
nothing, exactly when the payload length exceeds 255 for the 1-byte length
field and 65535 for the 2-byte length field; for all smaller payloads it
does not raise. -/
theorem send_packet_oversize (s : SocketManager) (now : Int) (connectOk : Bool)
    (sendResult : Option Nat) (data : Bytes) :
    (255 < data.length ↔
        PacketManager.send_packet s now connectOk sendResult 1 data =
          Except.error "Maximum packet size is 255")
    ∧ (65535 < data.length ↔
        PacketManager.send_packet s now connectOk sendResult 2 data =
          Except.error "Maximum packet size is 65535")
    ∧ (data.length ≤ 255 → ∃ res,
        PacketManager.send_packet s now connectOk sendResult 1 data = Except.ok res)
    ∧ (data.length ≤ 65535 → ∃ res,
        PacketManager.send_packet s now connectOk sendResult 2 data = Except.ok res) := by
  unfold PacketManager.send_packet PacketManager.send_packet_encode
  by_cases h1 : 255 < data.length <;> by_cases h2 : 65535 < data.length <;>
    simp [h1, h2] <;> omega

theorem send_packet_oversize_witness :
    PacketManager.send_packet sockConnEx 0 false none 1 (List.replicate 256 0) =
      Except.error "Maximum packet size is 255"
    ∧ ∃ res, PacketManager.send_packet sockConnEx 0 false none 1 [7] = Except.ok res :=
  ⟨(send_packet_oversize sockConnEx 0 false none (List.replicate 256 0)).1.mp
      (by simp only [List.length_replicate]; omega),
   (send_packet_oversize sockConnEx 0 false none [7]).2.2.1 (by simp)⟩

/-- Counterexample to claim C5 as stated: pause() from the Connected state
does not produce a disconnected state - it only sets the paused flag, so
the connection still reports connected afterwards. -/
theorem pause_does_not_disconnect :
    (sockConnEx.pause).connected = true ∧ (sockConnEx.pause).paused = true :=
  ⟨rfl, rfl⟩

/-- Claim C5 (amended): pause() sets the paused flag without touching the
connected flag or the socket; starting from a disconnected state, pause()
yields Disconnected-Paused and no number of poll() calls ever leaves that
state - polls never attempt a connect while paused - and retry() is what
clears the paused flag. -/
theorem pause_poll_stays_paused (s : SocketManager) (h : s.connected = false)
    (args : List (Int × Bool)) (now : Int) (ok : Bool) :
    ((s.pause).poll_many args).connected = false
    ∧ ((s.pause).poll_many args).paused = true
    ∧ (((s.pause).poll_many args).retry now ok).paused = false := by
  have h3 := poll_many_pause_invariant args s.pause h rfl
  exact ⟨h3.1, h3.2, retry_unpauses _ now ok⟩

theorem pause_poll_stays_paused_witness :
    ((sockDiscEx.pause).poll_many pollArgsEx).connected = false
    ∧ ((sockDiscEx.pause).poll_many pollArgsEx).paused = true
    ∧ (((sockDiscEx.pause).poll_many pollArgsEx).retry 300 true).paused = false :=
  pause_poll_stays_paused sockDiscEx rfl pollArgsEx 300 true

/-! ## Liveness timeout (claim C4) -/

theorem receive_liveness_none (s : NetThing) (now : Int) (ok : Bool)
    (h : s.last_receive = none) : s.receive_liveness now ok = (s, false) := by
  by_cases hc : s.sock.connected <;> simp [NetThing.receive_liveness, hc, h]

theorem receive_liveness_fires (s : NetThing) (now : Int) (ok : Bool) (t : Int)
    (hc : s.sock.connected = true) (hlr : s.last_receive = some t)
    (ht : now - t > (s.receive_timeout : Int)) :
    s.receive_liveness now ok =
      ({ s with sock := (s.sock.reconnect_h now ok).1, last_receive := none }, true) := by
  simp [NetThing.receive_liveness, hc, hlr, ht]

/-- Claim C4: with the connection established and more than receive_timeout
elapsed since the last received message, a receive cycle that decodes no
message forces exactly one reconnect and clears last_receive, so that a
following message-less receive cycle forces none; both cycles return
normally (no exception propagates). -/
theorem receive_timeout_single_reconnect {α : Type} (parse : Bytes → Option α)
    (pkts pkts2 : List Bytes) (s : NetThing) (t now now2 : Int) (ok ok2 : Bool)
    (hc : s.sock.connected = true) (hlr : s.last_receive = some t)
    (ht : now - t > (s.receive_timeout : Int))
    (h1 : JsonPacketManager.receive_json parse pkts = Except.ok [])
    (h2 : JsonPacketManager.receive_json parse pkts2 = Except.ok ([] : List α)) :
    NetThing.receive_cycle parse pkts s now ok =
      Except.ok ([], (s.receive_liveness now ok).1, true)
    ∧ (s.receive_liveness now ok).1.last_receive = none
    ∧ NetThing.receive_cycle parse pkts2 (s.receive_liveness now ok).1 now2 ok2 =
        Except.ok ([], (s.receive_liveness now ok).1, false) := by
  have hfire := receive_liveness_fires s now ok t hc hlr ht
  have hnone : (s.receive_liveness now ok).1.last_receive = none := by rw [hfire]
  refine ⟨?_, hnone, ?_⟩
  · simp [NetThing.receive_cycle, h1, hfire]
  · simp [NetThing.receive_cycle, h2,
      receive_liveness_none (s.receive_liveness now ok).1 now2 ok2 hnone]

/-- A JSON parser stub that rejects every payload. -/
def parseStub : Bytes → Option Unit := fun _ => none

/-- A connected NetThing that last received a message at time 0. -/
def netEx : NetThing := { sock := sockConnEx, last_receive := some 0, receive_timeout := 65 }

theorem receive_timeout_single_reconnect_witness :
    NetThing.receive_cycle parseStub [] netEx 100 false =
      Except.ok ([], (netEx.receive_liveness 100 false).1, true)
    ∧ (netEx.receive_liveness 100 false).1.last_receive = none
    ∧ NetThing.receive_cycle parseStub [] (netEx.receive_liveness 100 false).1 200 false =
        Except.ok ([], (netEx.receive_liveness 100 false).1, false) :=
  receive_timeout_single_reconnect parseStub [] [] netEx 0 100 200 false false rfl rfl
    (by decide) rfl rfl

/-! ## Disconnect hook invariant (claim C9) -/

theorem recv_go_hooks (events : List RecvEvent) :
    ∀ (s o : SocketManager), o ∈ (s.recv_go events).2 →
      o.connected = false ∧ o.sockOpen = false := by
  induction events with
  | nil => intro s o h; simp [SocketManager.recv_go] at h
  | cons e es ih =>
    intro s o h
    cases e with
    | chunk d => exact ih s o (by simpa [SocketManager.recv_go] using h)
    | eof =>
      simp [SocketManager.recv_go] at h
      subst h
      exact ⟨rfl, rfl⟩
    | oserror errno =>
      by_cases he : errno = 11
      · simp [SocketManager.recv_go, he] at h
      · simp [SocketManager.recv_go, he] at h
        subst h
        exact ⟨rfl, rfl⟩

/-- Claim C9: whichever path invokes the disconnect hook - a send failure,
a receive failure or zero-byte read, or an explicit reconnect - the state
the hook observes already has the connected flag cleared and the socket
closed. -/
theorem disconnect_hook_sees_torn_down (s : SocketManager) (now : Int) (ok : Bool)
    (sendResult : Option Nat) (dataLen : Nat) (events : List RecvEvent)
    (o : SocketManager) :
    (o ∈ (s.send_raw_h now ok sendResult dataLen).2.2 →
        o.connected = false ∧ o.sockOpen = false)
    ∧ (o ∈ (s.receive_raw_h now ok events).2 →
        o.connected = false ∧ o.sockOpen = false)
    ∧ (o ∈ (s.reconnect_h now ok).2 →
        o.connected = false ∧ o.sockOpen = false) := by
  refine ⟨?_, ?_, ?_⟩
  · intro h
    by_cases hc : (s.loop now ok).connected
    · cases sendResult with
      | none =>
        simp [SocketManager.send_raw_h, hc] at h
        subst h
        exact ⟨rfl, rfl⟩
      | some sent =>
        by_cases hd : sent = dataLen
        · simp [SocketManager.send_raw_h, hc, hd] at h
        · simp [SocketManager.send_raw_h, hc, hd] at h
          subst h
          exact ⟨rfl, rfl⟩
    · simp [SocketManager.send_raw_h, hc] at h
  · intro h
    by_cases hc : (s.loop now ok).connected
    · exact recv_go_hooks events (s.loop now ok) o
        (by simpa [SocketManager.receive_raw_h, hc] using h)
    · simp [SocketManager.receive_raw_h, hc] at h
  · intro h
    by_cases hc : s.connected
    · simp [SocketManager.reconnect_h, hc] at h
      subst h
      exact ⟨rfl, rfl⟩
    · simp [SocketManager.reconnect_h, hc] at h

/-- The state a disconnect hook observes in the reconnect example. -/
def hookObsEx : SocketManager := { sockConnEx with connected := false, sockOpen := false }

theorem disconnect_hook_sees_torn_down_witness :
    hookObsEx.connected = false ∧ hookObsEx.sockOpen = false :=
  (disconnect_hook_sees_torn_down sockConnEx 0 false none 0 [] hookObsEx).2.2 (by decide)

/-! ## Three send failures then one reconnect attempt per poll (claim C8) -/

theorem loop_false_cases (s : SocketManager) (now : Int) :
    s.loop now false = s ∨
      s.loop now false = { s with last_connect_attempt := now } := by
  unfold SocketManager.loop SocketManager.loop_a
  split_ifs with hc hel
  · exact Or.inl rfl
  · right
    rw [try_connect_a_fail]
  · exact Or.inl rfl

theorem loop_false_fields (s : SocketManager) (now : Int) :
    (s.loop now false).connected = s.connected
    ∧ (s.loop now false).paused = s.paused
    ∧ (s.loop now false).host = s.host
    ∧ (s.loop now false).port = s.port
    ∧ (s.loop now false).reconnect_interval = s.reconnect_interval := by
  rcases loop_false_cases s now with h | h <;> rw [h] <;> exact ⟨rfl, rfl, rfl, rfl, rfl⟩

theorem send_raw_h_connected_exn (s : SocketManager) (now : Int) (ok : Bool) (d : Nat)
    (h : s.connected = true) :
    s.send_raw_h now ok none d =
      ({ s with connected := false, sockOpen := false }, 0,
       [{ s with connected := false, sockOpen := false }]) := by
  have hl : s.loop now ok = s := by simp [SocketManager.loop, SocketManager.loop_a, h]
  simp [SocketManager.send_raw_h, hl, h]

theorem send_raw_h_connected_exn_fst (s : SocketManager) (now : Int) (ok : Bool) (d : Nat)
    (h : s.connected = true) :
    (s.send_raw_h now ok none d).1 = { s with connected := false, sockOpen := false } := by
  rw [send_raw_h_connected_exn s now ok d h]

theorem send_raw_h_connected_exn_sent (s : SocketManager) (now : Int) (ok : Bool) (d : Nat)
    (h : s.connected = true) :
    (s.send_raw_h now ok none d).2.1 = 0 := by
  rw [send_raw_h_connected_exn s now ok d h]

theorem send_raw_h_disconnected (s : SocketManager) (now : Int) (r : Option Nat) (d : Nat)
    (h : s.connected = false) :
    s.send_raw_h now false r d = (s.loop now false, 0, []) := by
  have hc : (s.loop now false).connected = false := by
    rw [(loop_false_fields s now).1, h]
  simp [SocketManager.send_raw_h, hc]

theorem send_raw_h_disconnected_fst (s : SocketManager) (now : Int) (r : Option Nat)
    (d : Nat) (h : s.connected = false) :
    (s.send_raw_h now false r d).1 = s.loop now false := by
  rw [send_raw_h_disconnected s now r d h]

theorem send_raw_h_disconnected_sent (s : SocketManager) (now : Int) (r : Option Nat)
    (d : Nat) (h : s.connected = false) :
    (s.send_raw_h now false r d).2.1 = 0 := by
  rw [send_raw_h_disconnected s now r d h]

theorem poll_attempt_once (s3 : SocketManager) (T : Int) (ok4 ok5 : Bool)
    (hc : s3.connected = false) (hp : s3.paused = false)
    (hh : strTruthy s3.host = true) (hq : natTruthy s3.port = true)
    (hT : T - s3.last_connect_attempt > (s3.reconnect_interval : Int)) :
    (s3.loop_a T ok4).2 = true ∧ ((s3.loop_a T ok4).1.loop_a T ok5).2 = false := by
  have hnotagain : ¬(T - T > (s3.reconnect_interval : Int)) := by omega
  have hnn : ¬((s3.reconnect_interval : Int) < 0) := by omega
  cases ok4 <;>
    simp [SocketManager.loop_a, SocketManager.try_connect_a, hc, hp, hh, hq, hT,
      hnotagain, hnn]

/-- Claim C8: starting connected, unpaused and fully configured, three
consecutive failing sends (the first raising inside sock.send, the rest
finding the connection down with failing reconnect attempts) each return 0
bytes and leave the connection in Disconnected-Active (connected false,
paused false); afterwards a single poll past the reconnect interval makes
exactly one connect attempt and an immediate second poll makes none. -/
theorem send_failures_then_single_poll_attempt (s : SocketManager)
    (t1 t2 t3 T : Int) (r2 r3 : Option Nat) (d1 d2 d3 : Nat) (ok4 ok5 : Bool)
    (hc : s.connected = true) (hp : s.paused = false)
    (hh : strTruthy s.host = true) (hq : natTruthy s.port = true)
    (hT : T - (((s.send_raw_h t1 false none d1).1.send_raw_h t2 false r2 d2).1.send_raw_h
        t3 false r3 d3).1.last_connect_attempt > (s.reconnect_interval : Int)) :
    (s.send_raw_h t1 false none d1).2.1 = 0
    ∧ ((s.send_raw_h t1 false none d1).1.send_raw_h t2 false r2 d2).2.1 = 0
    ∧ (((s.send_raw_h t1 false none d1).1.send_raw_h t2 false r2 d2).1.send_raw_h
        t3 false r3 d3).2.1 = 0
    ∧ (((s.send_raw_h t1 false none d1).1.send_raw_h t2 false r2 d2).1.send_raw_h
        t3 false r3 d3).1.connected = false
    ∧ (((s.send_raw_h t1 false none d1).1.send_raw_h t2 false r2 d2).1.send_raw_h
        t3 false r3 d3).1.paused = false
    ∧ ((((s.send_raw_h t1 false none d1).1.send_raw_h t2 false r2 d2).1.send_raw_h
        t3 false r3 d3).1.loop_a T ok4).2 = true
    ∧ (((((s.send_raw_h t1 false none d1).1.send_raw_h t2 false r2 d2).1.send_raw_h
        t3 false r3 d3).1.loop_a T ok4).1.loop_a T ok5).2 = false := by
  have g1 := send_raw_h_connected_exn_sent s t1 false d1 hc
  have f1 := send_raw_h_connected_exn_fst s t1 false d1 hc
  rw [f1] at hT ⊢
  set s1 : SocketManager := { s with connected := false, sockOpen := false } with hs1def
  have hc1 : s1.connected = false := rfl
  have g2 := send_raw_h_disconnected_sent s1 t2 r2 d2 hc1
  have f2 := send_raw_h_disconnected_fst s1 t2 r2 d2 hc1
  rw [f2] at hT ⊢
  set s2 : SocketManager := s1.loop t2 false with hs2def
  have hc2 : s2.connected = false := by
    rw [hs2def, (loop_false_fields s1 t2).1]
  have g3 := send_raw_h_disconnected_sent s2 t3 r3 d3 hc2
  have f3 := send_raw_h_disconnected_fst s2 t3 r3 d3 hc2
  rw [f3] at hT ⊢
  set s3 : SocketManager := s2.loop t3 false with hs3def
  have hc3 : s3.connected = false := by
    rw [hs3def, (loop_false_fields s2 t3).1]
    exact hc2
  have hp3 : s3.paused = false := by
    rw [hs3def, (loop_false_fields s2 t3).2.1, hs2def, (loop_false_fields s1 t2).2.1]
    exact hp
  have hh3 : strTruthy s3.host = true := by
    rw [hs3def, (loop_false_fields s2 t3).2.2.1, hs2def, (loop_false_fields s1 t2).2.2.1]
    exact hh
  have hq3 : natTruthy s3.port = true := by
    rw [hs3def, (loop_false_fields s2 t3).2.2.2.1, hs2def, (loop_false_fields s1 t2).2.2.2.1]
    exact hq
  have hi3 : s3.reconnect_interval = s.reconnect_interval := by
    rw [hs3def, (loop_false_fields s2 t3).2.2.2.2, hs2def, (loop_false_fields s1 t2).2.2.2.2]
  have hT3 : T - s3.last_connect_attempt > (s3.reconnect_interval : Int) := by
    rw [hi3]
    exact hT
  have hmain := poll_attempt_once s3 T ok4 ok5 hc3 hp3 hh3 hq3 hT3
  exact ⟨g1, g2, g3, hc3, hp3, hmain.1, hmain.2⟩

theorem send_failures_then_single_poll_attempt_witness :
    ((((sockConnEx.send_raw_h 1 false none 2).1.send_raw_h 2 false none 2).1.send_raw_h
        3 false none 2).1.loop_a 50 false).2 = true
    ∧ (((((sockConnEx.send_raw_h 1 false none 2).1.send_raw_h 2 false none 2).1.send_raw_h
        3 false none 2).1.loop_a 50 false).1.loop_a 50 false).2 = false :=
  ⟨(send_failures_then_single_poll_attempt sockConnEx 1 2 3 50 none none 2 2 2 false false
      rfl rfl (by decide) (by decide) (by decide)).2.2.2.2.2.1,
   (send_failures_then_single_poll_attempt sockConnEx 1 2 3 50 none none 2 2 2 false false
      rfl rfl (by decide) (by decide) (by decide)).2.2.2.2.2.2⟩

/-! ## Restartable frame decoding (claims C2 and C6) -/

theorem receive_packet_aux_nil (f : Nat) :
    PacketManager.receive_packet_aux f [] = ([], []) := by
  cases f <;> rfl

theorem receive_packet_aux_single (f b : Nat) :
    PacketManager.receive_packet_aux f [b] = ([], [b]) := by
  cases f <;> rfl

theorem receive_packet_aux_irrel :
    ∀ (f1 f2 : Nat) (buf : Bytes), buf.length ≤ 2 * f1 → buf.length ≤ 2 * f2 →
      PacketManager.receive_packet_aux f1 buf = PacketManager.receive_packet_aux f2 buf := by
  intro f1
  induction f1 with
  | zero =>
    intro f2 buf h1 h2
    have hb : buf = [] := by
      cases buf with
      | nil => rfl
      | cons x xs => simp at h1
    subst hb
    rw [receive_packet_aux_nil, receive_packet_aux_nil]
  | succ f ih =>
    intro f2 buf h1 h2
    match buf with
    | [] => rw [receive_packet_aux_nil, receive_packet_aux_nil]
    | [b] => rw [receive_packet_aux_single, receive_packet_aux_single]
    | b0 :: b1 :: rest =>
      match f2 with
      | 0 =>
        exfalso
        simp at h2
      | g + 1 =>
        by_cases hle : 256 * b0 + b1 ≤ rest.length
        · have hr1 : (rest.drop (256 * b0 + b1)).length ≤ 2 * f := by
            simp only [List.length_drop]
            simp only [List.length_cons] at h1
            omega
          have hr2 : (rest.drop (256 * b0 + b1)).length ≤ 2 * g := by
            simp only [List.length_drop]
            simp only [List.length_cons] at h2
            omega
          simp only [PacketManager.receive_packet_aux, if_pos hle]
          rw [ih g (rest.drop (256 * b0 + b1)) hr1 hr2]
        · simp only [PacketManager.receive_packet_aux, if_neg hle]

theorem receive_packet_drain_nil :
    PacketManager.receive_packet_drain [] = ([], []) := rfl

theorem receive_packet_drain_single (b : Nat) :
    PacketManager.receive_packet_drain [b] = ([], [b]) := rfl

theorem receive_packet_drain_cons (b0 b1 : Nat) (rest : Bytes) :
    PacketManager.receive_packet_drain (b0 :: b1 :: rest) =
      if 256 * b0 + b1 ≤ rest.length then
        (rest.take (256 * b0 + b1) ::
            (PacketManager.receive_packet_drain (rest.drop (256 * b0 + b1))).1,
         (PacketManager.receive_packet_drain (rest.drop (256 * b0 + b1))).2)
      else ([], b0 :: b1 :: rest) := by
  unfold PacketManager.receive_packet_drain
  have hlen : (b0 :: b1 :: rest).length = rest.length + 1 + 1 := by simp
  rw [hlen]
  by_cases hle : 256 * b0 + b1 ≤ rest.length
  · simp only [PacketManager.receive_packet_aux, if_pos hle]
    rw [receive_packet_aux_irrel (rest.length + 1) ((rest.drop (256 * b0 + b1)).length)
      (rest.drop (256 * b0 + b1)) (by simp only [List.length_drop]; omega)
      (by omega)]
  · simp only [PacketManager.receive_packet_aux, if_neg hle]

theorem receive_packet_drain_append_aux :
    ∀ (n : Nat) (a b : Bytes), a.length ≤ n →
      PacketManager.receive_packet_drain (a ++ b) =
        ((PacketManager.receive_packet_drain a).1 ++
            (PacketManager.receive_packet_drain
              ((PacketManager.receive_packet_drain a).2 ++ b)).1,
         (PacketManager.receive_packet_drain
              ((PacketManager.receive_packet_drain a).2 ++ b)).2) := by
  intro n
  induction n with
  | zero =>
    intro a b h
    have ha : a = [] := by
      cases a with
      | nil => rfl
      | cons x xs => simp at h
    subst ha
    simp [receive_packet_drain_nil]
  | succ n ih =>
    intro a b h
    match a with
    | [] => simp [receive_packet_drain_nil]
    | [x] =>
      rw [receive_packet_drain_single]
      simp
    | x0 :: x1 :: rest =>
      by_cases hle : 256 * x0 + x1 ≤ rest.length
      · have hle2 : 256 * x0 + x1 ≤ (rest ++ b).length := by
          simp only [List.length_append]
          omega
        have htake : (rest ++ b).take (256 * x0 + x1) = rest.take (256 * x0 + x1) :=
          List.take_append_of_le_length hle
        have hdrop : (rest ++ b).drop (256 * x0 + x1) =
            rest.drop (256 * x0 + x1) ++ b :=
          List.drop_append_of_le_length hle
        have hcons : (x0 :: x1 :: rest) ++ b = x0 :: x1 :: (rest ++ b) := rfl
        have hlen : (rest.drop (256 * x0 + x1)).length ≤ n := by
          simp only [List.length_cons] at h
          simp only [List.length_drop]
          omega
        rw [hcons, receive_packet_drain_cons x0 x1 (rest ++ b), if_pos hle2, htake, hdrop,
          receive_packet_drain_cons x0 x1 rest, if_pos hle,
          ih (rest.drop (256 * x0 + x1)) b hlen]
        simp [List.cons_append]
      · rw [receive_packet_drain_cons x0 x1 rest, if_neg hle]
        simp

theorem receive_packet_drain_residual :
    ∀ (n : Nat) (a : Bytes), a.length ≤ n →
      PacketManager.receive_packet_drain ((PacketManager.receive_packet_drain a).2) =
        ([], (PacketManager.receive_packet_drain a).2) := by
  intro n
  induction n with
  | zero =>
    intro a h
    have ha : a = [] := by
      cases a with
      | nil => rfl
      | cons x xs => simp at h
    subst ha
    simp [receive_packet_drain_nil]
  | succ n ih =>
    intro a h
    match a with
    | [] => simp [receive_packet_drain_nil]
    | [x] => simp [receive_packet_drain_single]
    | x0 :: x1 :: rest =>
      by_cases hle : 256 * x0 + x1 ≤ rest.length
      · have hlen : (rest.drop (256 * x0 + x1)).length ≤ n := by
          simp only [List.length_cons] at h
          simp only [List.length_drop]
          omega
        rw [receive_packet_drain_cons x0 x1 rest, if_pos hle]
        exact ih (rest.drop (256 * x0 + x1)) hlen
      · rw [receive_packet_drain_cons x0 x1 rest, if_neg hle,
          receive_packet_drain_cons x0 x1 rest, if_neg hle]

theorem receive_packet_feed_eq_drain :
    ∀ (cs : List Bytes) (buf : Bytes),
      PacketManager.receive_packet_drain buf = ([], buf) →
      PacketManager.receive_packet_feed buf cs =
        PacketManager.receive_packet_drain (buf ++ cs.flatten) := by
  intro cs
  induction cs with
  | nil =>
    intro buf h
    simp [PacketManager.receive_packet_feed, List.flatten_nil, h]
  | cons c cs ih =>
    intro buf h
    have hstuck := receive_packet_drain_residual ((buf ++ c).length) (buf ++ c) le_rfl
    have hih := ih (PacketManager.receive_packet_drain (buf ++ c)).2 hstuck
    have happ := receive_packet_drain_append_aux ((buf ++ c).length) (buf ++ c)
      cs.flatten le_rfl
    have hassoc : buf ++ (c :: cs).flatten = (buf ++ c) ++ cs.flatten := by
      rw [List.flatten_cons, ← List.append_assoc]
    simp only [PacketManager.receive_packet_feed]
    rw [hih, hassoc, happ]

/-- Claim C6: feeding a byte stream to receive_packet in any sequence of
separate chunks produces exactly the payloads and leftover buffer that
feeding the whole stream in one call produces: the accumulation buffer
persists across calls, so a frame may span any number of reads. -/
theorem receive_packet_restartable (cs : List Bytes) :
    PacketManager.receive_packet_feed [] cs =
      PacketManager.receive_packet_feed [] [cs.flatten] := by
  have h1 := receive_packet_feed_eq_drain cs [] rfl
  have h2 := receive_packet_feed_eq_drain [cs.flatten] [] rfl
  rw [h1, h2]
  simp

/-- Claim C2 (code divergence): with the 1-byte length field configured,
send_packet encodes the payload [5] as the frame [1, 5], but
receive_packet always reads a 2-byte big-endian length (here 261 = 0x0105)
regardless of the configured width, so decoding the encoded frame yields
no payload and keeps waiting for 261 more bytes; with the 2-byte length
field the same payload round-trips exactly. -/
theorem receive_packet_length_width_bug :
    PacketManager.send_packet_encode 1 [5] = Except.ok [1, 5]
    ∧ PacketManager.receive_packet_drain [1, 5] = ([], [1, 5])
    ∧ PacketManager.send_packet_encode 2 [5] = Except.ok [0, 1, 5]
    ∧ PacketManager.receive_packet_drain [0, 1, 5] = ([[5]], []) :=
  ⟨rfl, rfl, rfl, rfl⟩
